import Mathlib

/-!
Verification of the Tabular Ingestion & Schema Normalization Engine
(`data_loader.py` and the date decoder `parse_impl_date` of `app203.py`).

The Python code is shallowly embedded: pandas DataFrames become a `Table`
of column names and rows of `Cell`s, pandas Series operations become maps
and filters over rows, and the per-cell library calls (`pd.to_numeric`,
`pd.to_datetime`) are modelled per cell.  String manipulation is done on
`List Char` with structural recursion so that every definition evaluates
inside the kernel.
-/

/-! ### Character-list string utilities (models of Python `str` methods) -/

/-- Model of Python `str.strip()` restricted to both ends: drop characters
satisfying `p` from the front and the back of a character list. -/
def trimEndsBy (p : Char → Bool) (l : List Char) : List Char :=
  ((l.dropWhile p).reverse.dropWhile p).reverse

/-- Model of Python `str.strip()` (whitespace at both ends). -/
def pyStrip (s : String) : String :=
  String.mk (trimEndsBy Char.isWhitespace s.data)

/-- The byte-order-mark character stripped by `strip("﻿")` in the source. -/
def bomChar : Char := Char.ofNat 0xFEFF

/-- Model of Python `str.strip("﻿")`. -/
def stripBom (s : String) : String :=
  String.mk (trimEndsBy (fun c => c = bomChar) s.data)

/-- Model of the source idiom `str(x).strip().strip("﻿")` applied to
header cells. -/
def pyCleanCell (s : String) : String := stripBom (pyStrip s)

/-- Does the list `l` start with the list `pat`? -/
def startsWithL : List Char → List Char → Bool
  | _, [] => true
  | [], _ :: _ => false
  | a :: as, b :: bs => a = b && startsWithL as bs

/-- Does `l` contain `pat` as a contiguous segment?  Model of Python
`pat in s`. -/
def hasInfixL (pat : List Char) : List Char → Bool
  | [] => pat.isEmpty
  | c :: rest => startsWithL (c :: rest) pat || hasInfixL pat rest

/-- Model of the Python membership test `pat in s` on strings. -/
def strContains (s pat : String) : Bool := hasInfixL pat.data s.data

/-- Model of Python `s.startswith(pat)`. -/
def strStarts (s pat : String) : Bool := startsWithL s.data pat.data

/-- Split a character list on a separator character; model of Python
`str.split(sep)` for a one-character separator. -/
def splitOnChar (sep : Char) : List Char → List (List Char)
  | [] => [[]]
  | a :: as =>
    let r := splitOnChar sep as
    if a = sep then [] :: r
    else
      match r with
      | h :: t => (a :: h) :: t
      | [] => [[a]]

/-- Numeric value of a nonempty all-digit character list, `none` otherwise. -/
def digitsValAux : List Char → Nat → Option Nat
  | [], acc => some acc
  | c :: cs, acc =>
    if c.isDigit then digitsValAux cs (acc * 10 + (c.toNat - 48)) else none

/-- Numeric value of a nonempty all-digit character list, `none` otherwise. -/
def digitsVal (l : List Char) : Option Nat :=
  if l.isEmpty then none else digitsValAux l 0

/-- Model of the regex test `^\d+$` used for the sequence-number column. -/
def digitOk (s : String) : Bool :=
  !s.data.isEmpty && s.data.all Char.isDigit

/-- Decimal digits of a natural number (structural, fuel-driven so it
evaluates in the kernel); fuel `n + 1` always suffices. -/
def natStrAux : Nat → Nat → List Char
  | 0, _ => []
  | fuel + 1, n =>
    if n < 10 then [Char.ofNat (48 + n)]
    else natStrAux fuel (n / 10) ++ [Char.ofNat (48 + n % 10)]

/-- Decimal representation of a natural number; model of Python `str(int)`. -/
def natStr (n : Nat) : String := String.mk (natStrAux (n + 1) n)

/-- Decimal representation of an integer; model of Python `str(int)`. -/
def intStr (n : Int) : String :=
  if n < 0 then "-" ++ natStr n.natAbs else natStr n.natAbs

/-- Two-digit zero-padded field of a date representation. -/
def pad2 (n : Nat) : String := if n < 10 then "0" ++ natStr n else natStr n

/-! ### Calendar dates

Dates are triples (year, month, day).  Conversions to and from day counts
(days since 1970-01-01) follow the standard civil-calendar algorithms and
model the day arithmetic pandas performs for `unit='D'` conversions. -/

/-- A calendar date: year (may precede year 0), month `1..12`, day. -/
structure CalDate where
  y : Int
  m : Nat
  d : Nat
deriving DecidableEq, Repr

/-- Civil date of a day count (days since 1970-01-01, negative allowed). -/
def civilFromDays (z0 : Int) : CalDate :=
  let z := z0 + 719468
  let era : Int := z.fdiv 146097
  let doe : Int := z - era * 146097
  let yoe : Int := (doe - doe.fdiv 1460 + doe.fdiv 36524 - doe.fdiv 146096).fdiv 365
  let y : Int := yoe + era * 400
  let doy : Int := doe - (365 * yoe + yoe.fdiv 4 - yoe.fdiv 100)
  let mp : Int := (5 * doy + 2).fdiv 153
  let d : Int := doy - (153 * mp + 2).fdiv 5 + 1
  let m : Int := if mp < 10 then mp + 3 else mp - 9
  { y := if m ≤ 2 then y + 1 else y, m := m.toNat, d := d.toNat }

/-- Day count (days since 1970-01-01) of a civil date. -/
def daysFromCivil (y : Int) (m d : Nat) : Int :=
  let y2 : Int := if m ≤ 2 then y - 1 else y
  let era : Int := y2.fdiv 400
  let yoe : Int := y2 - era * 400
  let mp : Int := if 2 < m then (m : Int) - 3 else (m : Int) + 9
  let doy : Int := (153 * mp + 2).fdiv 5 + d - 1
  let doe : Int := yoe * 365 + yoe.fdiv 4 - yoe.fdiv 100 + doy
  era * 146097 + doe - 719468

/-- Gregorian leap-year test. -/
def isLeap (y : Int) : Bool := y % 4 = 0 && (y % 100 ≠ 0 || y % 400 = 0)

/-- Number of days in a month. -/
def daysInMonth (y : Int) (m : Nat) : Nat :=
  if m = 2 then (if isLeap y then 29 else 28)
  else if m = 4 ∨ m = 6 ∨ m = 9 ∨ m = 11 then 30
  else 31

/-- Build a date after validating the month and day ranges, as the pandas
string parser does. -/
def mkValidDate (y : Int) (m d : Nat) : Option CalDate :=
  if 1 ≤ m ∧ m ≤ 12 ∧ 1 ≤ d ∧ d ≤ daysInMonth y m then some ⟨y, m, d⟩ else none

/-- Excel's day-serial epoch 1899-12-30 as a day count, the `origin` used by
`pd.to_datetime(..., unit='D', origin='1899-12-30')` in the source. -/
def excelEpoch : Int := daysFromCivil 1899 12 30

/-! ### Cells and the per-cell library calls -/

/-- One spreadsheet cell as produced by pandas: a native datetime value, a
numeric value (integer-typed), free text, or a missing value (NaN/NaT). -/
inductive Cell where
  | date (d : CalDate)
  | num (n : Int)
  | str (s : String)
  | na
deriving DecidableEq, Repr

/-- ISO rendering of a date with the time suffix a pandas `Timestamp` prints. -/
def dateIso (d : CalDate) : String :=
  intStr d.y ++ "-" ++ pad2 d.m ++ "-" ++ pad2 d.d

/-- Model of Python `str(cell)` / `Series.astype(str)` per cell: NaN prints
as `"nan"`, a Timestamp prints date and midnight time. -/
def cellStr : Cell → String
  | .str s => s
  | .num n => intStr n
  | .na => "nan"
  | .date d => dateIso d ++ " 00:00:00"

/-- Unnormalized rational: the value `num / den` with `den` a positive power
of ten.  Models the float64 results of `pd.to_numeric` exactly on the
decimal inputs the loader sees, without needing normalization. -/
structure PyNum where
  num : Int
  den : Nat
deriving DecidableEq, Repr

/-- An integer as a `PyNum`. -/
def PyNum.ofInt (n : Int) : PyNum := ⟨n, 1⟩

/-- `n ≤ q` for an integer bound `n` (cross-multiplied; `den > 0`). -/
def PyNum.geInt (q : PyNum) (n : Int) : Bool := n * q.den ≤ q.num

/-- `q ≤ n` for an integer bound `n` (cross-multiplied; `den > 0`). -/
def PyNum.leInt (q : PyNum) (n : Int) : Bool := q.num ≤ n * q.den

/-- Truncation toward zero; model of numpy `astype(int)` on a float. -/
def PyNum.trunc (q : PyNum) : Int := q.num.tdiv q.den

/-- Parse a decimal numeric literal (optional sign, optional decimal point);
per-cell model of `pd.to_numeric(..., errors="coerce")` on a string. -/
def parseNumStr (s : String) : Option PyNum :=
  let l := trimEndsBy Char.isWhitespace s.data
  let sl : Int × List Char :=
    match l with
    | '-' :: rest => (-1, rest)
    | '+' :: rest => (1, rest)
    | _ => (1, l)
  match splitOnChar '.' sl.2 with
  | [ip] => (digitsVal ip).map (fun n => ⟨sl.1 * n, 1⟩)
  | [ip, fp] =>
    if ip.isEmpty && fp.isEmpty then none
    else
      let iv := if ip.isEmpty then some 0 else digitsVal ip
      let fv := if fp.isEmpty then some 0 else digitsVal fp
      match iv, fv with
      | some i, some f =>
        some ⟨sl.1 * ((i : Int) * (10 : Int) ^ fp.length + f), (10 : Nat) ^ fp.length⟩
      | _, _ => none
  | _ => none

/-- Per-cell model of `pd.to_numeric(series, errors="coerce")`: numeric cells
pass through, numeric text parses, everything else coerces to NaN. -/
def toNumeric : Cell → Option PyNum
  | .num n => some (PyNum.ofInt n)
  | .str s => parseNumStr s
  | _ => none

/-- Per-cell model of `pd.to_datetime(..., format="mixed", errors="coerce")`
on a string, for the separator-based formats the progress sheets use:
`YYYY-MM-DD`, `YYYY/MM/DD` and month-first `MM/DD/YYYY`, each with an
optional time-of-day suffix.  Anything else coerces to NaT (`none`). -/
def parseDateStr (s : String) : Option CalDate :=
  let t := trimEndsBy Char.isWhitespace s.data
  let core := t.takeWhile (fun c => c ≠ ' ')
  match splitOnChar '-' core with
  | [a, b, c] =>
    if a.length = 4 then
      match digitsVal a, digitsVal b, digitsVal c with
      | some yy, some mm, some dd => mkValidDate (yy : Int) mm dd
      | _, _, _ => none
    else none
  | _ =>
    match splitOnChar '/' core with
    | [a, b, c] =>
      if a.length = 4 then
        match digitsVal a, digitsVal b, digitsVal c with
        | some yy, some mm, some dd => mkValidDate (yy : Int) mm dd
        | _, _, _ => none
      else if c.length = 4 then
        match digitsVal a, digitsVal b, digitsVal c with
        | some mm, some dd, some yy => mkValidDate (yy : Int) mm dd
        | _, _, _ => none
      else none
    | _ => none

/-! ### The date decoder `parse_impl_date` of `app203.py`

The Python function works on a whole Series; its datetime branch fires on
the dtype of the column, and the Excel-serial and string branches are
elementwise.  An element enters the string branch exactly when it was not
claimed by the Excel branch (entries the Excel branch resolved and then
masked back to NaT for year 1900 keep `excel_mask` set, so they do not
re-enter).  `parseImplDateCell isDt c` decodes one cell of a column whose
datetime-dtype test returned `isDt`. -/

/-- String branch of `parse_impl_date`: stringify, strip, treat the literal
null tokens as absent, exclude raw strings with prefix `"1900"` from
parsing, then parse.  Note there is no year-1900 mask after this branch. -/
def stringBranch (c : Cell) : Option CalDate :=
  let s := pyStrip (cellStr c)
  if s = "" ∨ s = "nan" ∨ s = "None" ∨ s = "NaT" then none
  else if strStarts s "1900" then none
  else parseDateStr s

/-- One-cell model of `parse_impl_date` (`app203.py`): datetime branch
(year-1900 mask), Excel-serial branch for numeric values in `[1, 100000]`
(day offset from 1899-12-30, year-1900 mask), string branch otherwise. -/
def parseImplDateCell (isDt : Bool) (c : Cell) : Option CalDate :=
  if isDt then
    match c with
    | .date d => if d.y = 1900 then none else some d
    | _ => none
  else
    match toNumeric c with
    | some q =>
      if q.geInt 1 && q.leInt 100000 then
        let d := civilFromDays (excelEpoch + q.trunc)
        if d.y = 1900 then none else some d
      else stringBranch c
    | none => stringBranch c

/-! ### The table model and `data_loader.py` -/

/-- A pandas DataFrame: ordered column names plus rows of cells. -/
structure Table where
  cols : List String
  rows : List (List Cell)
deriving DecidableEq, Repr

/-- `TIMELINE_COLS` of `data_loader.py`: the nine milestone column names of
header row 2. -/
def TIMELINE_COLS : List String :=
  ["需求立项", "需求审核", "规划设计方案", "成本核算", "项目决策",
   "招采", "实施", "验收", "结算"]

/-- `PARK_TOKENS` of `data_loader.py`: the known park-name tokens. -/
def PARK_TOKENS : List String :=
  ["燕园", "蜀园", "吴园", "粤园", "申园", "楚园", "鹭园", "大清谷", "湘园",
   "沈园", "桂园", "琴园", "赣园", "苏园", "甬园", "豫园", "渝园", "徽园",
   "鹏园", "瓯园", "福园", "儒园", "津园", "滇园"]

/-- Start offset of the timeline block inside header row 2, as computed in
`_parse_header` and `_parse_header_from_rows`:
`8 if len >= 17 else (9 if len >= 18 else max(0, len - 9))`. -/
def timelineStart (len1 : Nat) : Nat :=
  if len1 ≥ 8 + TIMELINE_COLS.length then 8
  else if len1 ≥ 9 + TIMELINE_COLS.length then 9
  else (max 0 ((len1 : Int) - TIMELINE_COLS.length)).toNat

/-- `_parse_header_from_rows` of `data_loader.py` (the same merging logic as
the CSV variant `_parse_header`): clean both rows, take up to nine cells of
row 1, take nine timeline cells of row 2 from the probed offset, pad the
timeline segment with empty strings to length nine, concatenate. -/
def parseHeaderFromRows (row0 row1 : List String) : List String :=
  let line0 := row0.map pyCleanCell
  let line1 := row1.map pyStrip
  let nFirst := if line0.length ≥ 8 then min 9 line0.length else line0.length
  let part1 := if nFirst ≠ 0 then line0.take nFirst else line0
  let start := timelineStart line1.length
  let part2 := (line1.drop start).take TIMELINE_COLS.length
  let part2 := part2 ++ List.replicate (TIMELINE_COLS.length - part2.length) ""
  part1 ++ part2.take TIMELINE_COLS.length

/-- First index of a column name in a table, the way `df[name]` selects. -/
def colIdx (t : Table) (c : String) : Option Nat := t.cols.findIdx? (fun x => x = c)

/-- Rename every column named `old` to `new`; model of `df.rename(columns=...)`. -/
def renameCol (t : Table) (old new : String) : Table :=
  { t with cols := t.cols.map (fun c => if c = old then new else c) }

/-- Keep the rows satisfying `p`; model of `df.loc[mask]`. -/
def filterRows (p : List Cell → Bool) (t : Table) : Table :=
  { t with rows := t.rows.filter p }

/-- Replace position `i` of a list by `f` of it (identity out of range). -/
def modifyAt (i : Nat) (f : Cell → Cell) : List Cell → List Cell
  | [] => []
  | c :: cs =>
    match i with
    | 0 => f c :: cs
    | j + 1 => c :: modifyAt j f cs

/-- Apply `f` to every cell of column `i`; model of `df[c] = f(df[c])`. -/
def mapColAt (i : Nat) (f : Cell → Cell) (t : Table) : Table :=
  { t with rows := t.rows.map (modifyAt i f) }

/-- Append a new column holding the same value in every row; model of the
pandas broadcast `df[name] = value`. -/
def addConstCol (t : Table) (name : String) (v : Cell) : Table :=
  { cols := t.cols ++ [name], rows := t.rows.map (fun r => r ++ [v]) }

/-- Append a new column copying column `i` of each row; model of
`df[new] = df[src]`. -/
def addCopyCol (t : Table) (name : String) (i : Nat) : Table :=
  { cols := t.cols ++ [name], rows := t.rows.map (fun r => r ++ [r.getD i Cell.na]) }

/-- Python truthiness of the optional `园区名` argument (`None` and the empty
string are falsy). -/
def pyTruthyOpt : Option String → Bool
  | none => false
  | some s => s ≠ ""

/-- Column-name cleanup stage of `_normalize_loaded_df`: unify the verbose
acceptance headers to `验收`, strip whitespace and byte-order marks, and
rename `拟定承建组` to `拟定承建组织` when the long form is absent. -/
def stageCols (t : Table) : Table :=
  let cols1 := t.cols.map (fun n =>
    if n ≠ "" ∧ strContains n "验收" ∧ strContains n "社区" then "验收" else n)
  let t1 : Table := { t with cols := cols1.map pyCleanCell }
  if "拟定承建组" ∈ t1.cols ∧ "拟定承建组织" ∉ t1.cols then
    renameCol t1 "拟定承建组" "拟定承建组织"
  else t1

/-- The sequence-number column chosen by `_normalize_loaded_df`: `序号` if
present, else `编号`, else the first physical column.  Returns its name and
index (the table is known nonempty at this point). -/
def seqColOf (t : Table) : String × Nat :=
  match colIdx t "序号" with
  | some i => ("序号", i)
  | none =>
    match colIdx t "编号" with
    | some i => ("编号", i)
    | none => (t.cols.headD "", 0)

/-- Validity test of one sequence-number cell: all-digit text after
stripping, or parseable by `pd.to_numeric` (any sign). -/
def seqValid (c : Cell) : Bool :=
  digitOk (pyStrip (cellStr c)) || (toNumeric c).isSome

/-- Summary-row test of `_normalize_loaded_df`: the stripped text matches
the anchored regex `^(合计|差额|小计|合计行)`. -/
def isSummaryTok (s : String) : Bool :=
  strStarts s "合计" || strStarts s "差额" || strStarts s "小计" || strStarts s "合计行"

/-- Combined emission test of the two row filters: valid sequence cell and
not a summary row. -/
def seqKeep (c : Cell) : Bool :=
  seqValid c && !(isSummaryTok (pyStrip (cellStr c)))

/-- Row-filtering stage of `_normalize_loaded_df`: drop rows whose
sequence-number cell is neither all-digit text nor numeric, then drop rows
whose sequence cell matches a summary token (the second filter looks the
column up again by name and is skipped for an unnamed first column). -/
def filterSeq (t : Table) : Table :=
  let sc := seqColOf t
  let t1 := filterRows (fun r => seqValid (r.getD sc.2 Cell.na)) t
  if sc.1 ≠ "" ∧ sc.1 ∈ t1.cols then
    match colIdx t1 sc.1 with
    | some j => filterRows (fun r => !(isSummaryTok (pyStrip (cellStr (r.getD j Cell.na))))) t1
    | none => t1
  else t1

/-- Planned-amount coercion of `_normalize_loaded_df`:
`pd.to_numeric(df["拟定金额"], errors="coerce").fillna(0).astype(int)`. -/
def coerceAmount (t : Table) : Table :=
  match colIdx t "拟定金额" with
  | some j => mapColAt j (fun c => Cell.num (((toNumeric c).getD (PyNum.ofInt 0)).trunc)) t
  | none => t

/-- Rename stage: a `社区` column becomes `园区` when no `园区` column exists. -/
def renameShequ (t : Table) : Table :=
  if "社区" ∈ t.cols ∧ "园区" ∉ t.cols then renameCol t "社区" "园区" else t

/-- Discipline-alias stage: mirror `专业细分` and `专业分包` into one another
when exactly one of them exists. -/
def aliasZhuanye (t : Table) : Table :=
  if "专业细分" ∈ t.cols ∧ "专业分包" ∉ t.cols then
    addCopyCol t "专业分包" ((colIdx t "专业细分").getD 0)
  else if "专业分包" ∈ t.cols ∧ "专业细分" ∉ t.cols then
    addCopyCol t "专业细分" ((colIdx t "专业分包").getD 0)
  else t

/-- Scan of the first ten rows' `项目名称` text for a park token, in row
order then `PARK_TOKENS` order; `none` when the column is missing or no
token occurs. -/
def projNameScan (t : Table) : Option String :=
  match colIdx t "项目名称" with
  | none => none
  | some j =>
    (t.rows.take 10).findSome? (fun r =>
      PARK_TOKENS.find? (fun tok => strContains (cellStr (r.getD j Cell.na)) tok))

/-- Park-resolution stage of `_normalize_loaded_df`: an existing `园区`
column is kept untouched; otherwise the explicit argument, then a token in
the file/sheet name, then a token in the first ten project names, then the
sentinel `未知园区`. -/
def resolvePark (parkArg : Option String) (sourceName : String) (t : Table) : Table :=
  if "园区" ∈ t.cols then t
  else if pyTruthyOpt parkArg then addConstCol t "园区" (Cell.str (parkArg.getD ""))
  else
    match PARK_TOKENS.find? (fun tok => strContains sourceName tok) with
    | some tok => addConstCol t "园区" (Cell.str tok)
    | none =>
      match projNameScan t with
      | some tok => addConstCol t "园区" (Cell.str tok)
      | none => addConstCol t "园区" (Cell.str "未知园区")

/-- `_normalize_loaded_df` of `data_loader.py`: an empty frame is returned
unchanged; otherwise the stages run in source order — column cleanup,
sequence filters, amount coercion, `社区` rename, discipline alias, park
resolution. -/
def normalizeLoadedDf (parkArg : Option String) (sourceName : String) (t : Table) : Table :=
  if t.rows = [] ∨ t.cols = [] then t
  else resolvePark parkArg sourceName
    (aliasZhuanye (renameShequ (coerceAmount (filterSeq (stageCols t)))))

/-- One step of the `_ensure_unique_columns` loop, carrying the `seen`
occurrence counts (association list) and the position `i`. -/
def renameLoop (seen : List (String × Nat)) (i : Nat) : List String → List String
  | [] => []
  | c :: rest =>
    let name := pyStrip c
    let key := if name = "" then "__empty_" ++ natStr i else name
    match seen.lookup key with
    | none =>
      (if c ≠ "" ∧ pyStrip c ≠ "" then c else "Unnamed_" ++ natStr i) ::
        renameLoop ((key, 0) :: seen) (i + 1) rest
    | some v =>
      let seen2 := (key, v + 1) :: seen
      (if name ≠ "" then name ++ "_" ++ natStr (v + 2)
       else "Unnamed_" ++ natStr i ++ "_" ++ natStr (v + 2)) ::
        renameLoop seen2 (i + 1) rest

/-- `_ensure_unique_columns` of `data_loader.py`: leave a table with unique
column names alone, otherwise suffix repeated names `_2, _3, ...` and give
empty names positional placeholders. -/
def ensureUniqueColumns (t : Table) : Table :=
  if t.cols.Nodup then t else { t with cols := renameLoop [] 0 t.cols }

/-- Union of column names in order of first appearance, as `pd.concat`
aligns frames (default `sort=False`). -/
def unionCols (fs : List Table) : List String :=
  fs.foldl (fun acc f => f.cols.foldl (fun a c => if c ∈ a then a else a ++ [c]) acc) []

/-- `pd.concat(frames, ignore_index=True)`: align every row onto the column
union by name, missing columns become NaN, row order is source order. -/
def concatFrames (fs : List Table) : Table :=
  let cs := unionCols fs
  { cols := cs
    rows := fs.flatMap (fun f => f.rows.map (fun r =>
      cs.map (fun c =>
        match f.cols.findIdx? (fun x => x = c) with
        | some i => r.getD i Cell.na
        | none => Cell.na))) }

/-- The merge performed at the end of `load_single_xlsx`: make each frame's
columns unique, then concatenate. -/
def mergeNormalized (fs : List Table) : Table :=
  concatFrames (fs.map ensureUniqueColumns)

/-! ### CSV ingestion (`_read_first_two_lines`, `load_single_csv`) -/

/-- The text encodings tried in order by `_read_first_two_lines`. -/
inductive Enc where
  | utf8sig
  | utf8
  | gbk
  | gb2312
deriving DecidableEq, Repr

/-- The trial order of `_read_first_two_lines`. -/
def ENCODINGS : List Enc := [.utf8sig, .utf8, .gbk, .gb2312]

/-- The error message raised when no encoding decodes the file. -/
def encErrMsg : String := "无法识别文件编码，请另存为 UTF-8 或 GBK 的 CSV"

/-- Trial loop of `_read_first_two_lines` over a decoding oracle: `decode e`
is the first two raw lines of the file under encoding `e`, or `none` when
that decode raises.  Each decoded line is stripped and split on commas. -/
def tryEncs (decode : Enc → Option (String × String)) :
    List Enc → Except String (List String × List String × Enc)
  | [] => .error encErrMsg
  | e :: rest =>
    match decode e with
    | some (l0, l1) =>
      .ok ((splitOnChar ',' (pyStrip l0).data).map String.mk,
           (splitOnChar ',' (pyStrip l1).data).map String.mk, e)
    | none => tryEncs decode rest

/-- `_read_first_two_lines` of `data_loader.py`. -/
def readFirstTwoLines (decode : Enc → Option (String × String)) :
    Except String (List String × List String × Enc) :=
  tryEncs decode ENCODINGS

/-- Acceptance-header unification plus cell cleanup applied to the resolved
names in `load_single_csv` before they become the columns. -/
def cleanCsvNames (names : List String) : List String :=
  (names.map (fun n =>
    if n ≠ "" ∧ strContains n "验收" ∧ strContains n "社区" then "验收" else n)).map
    pyCleanCell

/-- Column-count alignment of `load_single_csv`: surplus columns are cut,
missing ones are filled with empty strings. -/
def alignWidth (n : Nat) (rows : List (List Cell)) : List (List Cell) :=
  rows.map (fun r => r.take n ++ List.replicate (n - (r.take n).length) (Cell.str ""))

/-- `load_single_csv` of `data_loader.py` for the generic two-row-header
path: resolve the header from the first two lines (probing the encodings),
clean the names, read the data rows with the detected encoding (`readCsv`
is the decoded body of the file per encoding), align the width, and
normalize.  An encoding failure escapes as the error, producing no table. -/
def loadSingleCsv (decode : Enc → Option (String × String))
    (readCsv : Enc → List (List Cell)) (parkArg : Option String) (stem : String) :
    Except String Table :=
  match readFirstTwoLines decode with
  | .error e => .error e
  | .ok (line0, line1, enc) =>
    let names := cleanCsvNames (parseHeaderFromRows line0 line1)
    .ok (normalizeLoadedDf parkArg stem
      { cols := names, rows := alignWidth names.length (readCsv enc) })

/-! ### `get_稳定需求_mask` of `data_loader.py` -/

/-- Per-cell model of `pd.to_datetime(s, errors="coerce", format="mixed")`
as applied to the requirement-approval column: native dates pass through,
strings go to the flexible parser, everything else coerces to NaT. -/
def toDatetimeCell : Cell → Option CalDate
  | .date d => some d
  | .str s => parseDateStr s
  | _ => none

/-- `get_稳定需求_mask` of `data_loader.py`: find the first column whose
name contains `需求立项`; without one every record is `false`; with one a
record is `true` iff its cell parses to a date of year at least 2000. -/
def getStableDemandMask (t : Table) : List Bool :=
  match t.cols.find? (fun c => strContains c "需求立项") with
  | none => t.rows.map (fun _ => false)
  | some c =>
    let i := (t.cols.findIdx? (fun x => x = c)).getD 0
    t.rows.map (fun r =>
      match toDatetimeCell (r.getD i Cell.na) with
      | some d => decide (2000 ≤ d.y)
      | none => false)

/-! ### Shared helper lemmas -/

/-- The integer cell `n` enters the Excel-serial branch iff `1 ≤ n ≤ 100000`,
in which case the branch converts `n` by day offset from the 1899-12-30
epoch and masks year 1900. -/
theorem parseImplDateCell_num (n : Int) :
    parseImplDateCell false (Cell.num n) =
      (if 1 ≤ n ∧ n ≤ 100000 then
        (if (civilFromDays (excelEpoch + n)).y = 1900 then none
         else some (civilFromDays (excelEpoch + n)))
       else stringBranch (Cell.num n)) := by
  simp only [parseImplDateCell, toNumeric, PyNum.ofInt, PyNum.geInt, PyNum.leInt,
    PyNum.trunc, Int.tdiv_one]
  by_cases h1 : 1 ≤ n <;> by_cases h2 : n ≤ 100000 <;>
    simp [h1, h2, Int.tdiv_one]

/-! ### C1 — HeaderResolver offset probing -/

/-- C1 (code evaluation): the probed timeline offset of `_parse_header` /
`_parse_header_from_rows` at the claimed inputs.  A 17-cell row 2 yields
offset 8 as claimed, and a short row is taken from offset 0 and padded with
empty strings to nine names; but an 18-cell row 2 also yields offset 8 —
the `len >= 18` branch that would select offset 9 is unreachable because
the `len >= 17` test is checked first, contradicting the function's own
docstring (timeline starting at column 8 or 9). -/
theorem c1_header_offset_eval :
    timelineStart 17 = 8 ∧
    timelineStart 18 = 8 ∧
    timelineStart 8 = 0 ∧
    timelineStart 5 = 0 ∧
    parseHeaderFromRows [] ["a", "b", "c"] =
      ["a", "b", "c", "", "", "", "", "", ""] := by
  refine ⟨rfl, rfl, rfl, rfl, ?_⟩
  decide

/-! ### C2 — sentinel rejection of year 1900 -/

/-- C2 (counterexample): the string `"06/01/1900"` resolves through the
string branch to the calendar date 1900-06-01, yet the decoder's final
result is that date, not absent — the string branch has no year-1900 mask
and its prefix test does not catch month-first renderings of 1900. -/
theorem c2_sentinel_counterexample :
    parseImplDateCell false (Cell.str "06/01/1900") = some ⟨1900, 6, 1⟩ := by
  decide

/-- C2 (amended): the year-1900 sentinel mask applies to the results of the
native-datetime branch and of the Excel-serial branch; in the string branch
only raw strings that literally start with `"1900"` are excluded, so those
two branches never return a year-1900 date while the string branch may. -/
theorem c2_sentinel_amended :
    (∀ d : CalDate, d.y = 1900 → parseImplDateCell true (Cell.date d) = none) ∧
    (∀ n : Int, 1 ≤ n → n ≤ 100000 →
      (civilFromDays (excelEpoch + n)).y = 1900 →
      parseImplDateCell false (Cell.num n) = none) ∧
    (∀ s : String, toNumeric (Cell.str s) = none →
      strStarts (pyStrip s) "1900" = true →
      parseImplDateCell false (Cell.str s) = none) := by
  refine ⟨fun d h => by simp [parseImplDateCell, h], fun n h1 h2 h3 => ?_, fun s h1 h2 => ?_⟩
  · rw [parseImplDateCell_num]
    simp [h1, h2, h3]
  · have hs : ∀ x : String, strStarts x "1900" = true →
        ¬(x = "" ∨ x = "nan" ∨ x = "None" ∨ x = "NaT") := by
      intro x hx hmem
      rcases hmem with h | h | h | h <;> rw [h] at hx <;> exact absurd hx (by decide)
    simp only [parseImplDateCell, toNumeric] at h1 ⊢
    rw [h1]
    simp only [stringBranch, cellStr]
    rw [if_neg (hs _ h2), if_pos h2]
    simp

/-- C2 (witness for the amended theorem): instantiates the three conjuncts —
the native date 1900-01-06, the Excel serial 10 (which lands in 1900), and
the raw string `"1900-01-06"` are all decoded to absent. -/
theorem c2_sentinel_amended_witness :
    parseImplDateCell true (Cell.date ⟨1900, 1, 6⟩) = none ∧
    parseImplDateCell false (Cell.num 10) = none ∧
    parseImplDateCell false (Cell.str "1900-01-06") = none :=
  ⟨c2_sentinel_amended.1 ⟨1900, 1, 6⟩ (by decide),
   c2_sentinel_amended.2.1 10 (by decide) (by decide) (by decide),
   c2_sentinel_amended.2.2 "1900-01-06" (by decide) (by decide)⟩

/-! ### C6 — Excel-serial branch acceptance window -/

/-- C6: the Excel-serial branch accepts exactly the numeric cells in
`[1, 100000]`, converting by day offset from the 1899-12-30 epoch — serial
1 decodes to 1899-12-31 and serial 45000 decodes to 2023-03-15 — while a
numeric cell outside the window (such as 100001) is handed to the string
branch, which rejects it. -/
theorem c6_excel_serial_branch :
    parseImplDateCell false (Cell.num 1) = some ⟨1899, 12, 31⟩ ∧
    parseImplDateCell false (Cell.num 45000) = some ⟨2023, 3, 15⟩ ∧
    (parseImplDateCell false (Cell.num 100001) = stringBranch (Cell.num 100001) ∧
      stringBranch (Cell.num 100001) = none) ∧
    (∀ n : Int, 1 ≤ n → n ≤ 100000 →
      parseImplDateCell false (Cell.num n) =
        (if (civilFromDays (excelEpoch + n)).y = 1900 then none
         else some (civilFromDays (excelEpoch + n)))) ∧
    (∀ n : Int, n < 1 ∨ 100000 < n →
      parseImplDateCell false (Cell.num n) = stringBranch (Cell.num n)) := by
  refine ⟨by decide, by decide, ⟨by decide, by decide⟩, fun n h1 h2 => ?_, fun n h => ?_⟩
  · rw [parseImplDateCell_num]
    simp [h1, h2]
  · rw [parseImplDateCell_num]
    rcases h with h | h <;> rw [if_neg (by omega)]

/-- C6 (witness): the two quantified conjuncts instantiated at serial 45000
(inside the window) and serial 100001 (outside it). -/
theorem c6_excel_serial_witness :
    parseImplDateCell false (Cell.num 45000) =
      (if (civilFromDays (excelEpoch + 45000)).y = 1900 then none
       else some (civilFromDays (excelEpoch + 45000))) ∧
    parseImplDateCell false (Cell.num 100001) = stringBranch (Cell.num 100001) :=
  ⟨c6_excel_serial_branch.2.2.2.1 45000 (by decide) (by decide),
   c6_excel_serial_branch.2.2.2.2 100001 (Or.inr (by decide))⟩

/-! ### C8 — idempotence of the date decoder -/

/-- C8 (counterexample): the string `"06/01/1900"` decodes to the date
1900-06-01, but re-decoding that date value (now datetime-typed) yields
absent, not the same date — the decoder is not idempotent on string-branch
results of year 1900. -/
theorem c8_idempotence_counterexample :
    parseImplDateCell false (Cell.str "06/01/1900") = some ⟨1900, 6, 1⟩ ∧
    parseImplDateCell true (Cell.date ⟨1900, 6, 1⟩) = none := by
  constructor <;> decide

/-- C8 (amended): re-decoding an absent value yields absent under either
dtype; re-decoding a date produced by the native-datetime branch or by the
Excel-serial branch yields the same date; and a string-branch result
re-decodes to itself exactly when its year is not 1900. -/
theorem c8_idempotence_amended :
    (∀ b : Bool, parseImplDateCell b Cell.na = none) ∧
    (∀ (c : Cell) (d : CalDate), parseImplDateCell true c = some d →
      parseImplDateCell true (Cell.date d) = some d) ∧
    (∀ (n : Int) (d : CalDate), 1 ≤ n → n ≤ 100000 →
      parseImplDateCell false (Cell.num n) = some d →
      parseImplDateCell true (Cell.date d) = some d) ∧
    (∀ (s : String) (d : CalDate), parseImplDateCell false (Cell.str s) = some d →
      d.y ≠ 1900 → parseImplDateCell true (Cell.date d) = some d) := by
  refine ⟨fun b => by cases b <;> decide, fun c d h => ?_, fun n d h1 h2 h => ?_,
    fun s d h hy => ?_⟩
  · cases c <;> simp only [parseImplDateCell] at h
    case date d0 =>
      by_cases h0 : d0.y = 1900
      · simp [h0] at h
      · simp [h0] at h
        subst h
        simp [parseImplDateCell, h0]
    all_goals cases h
  · rw [parseImplDateCell_num] at h
    rw [if_pos ⟨h1, h2⟩] at h
    by_cases h0 : (civilFromDays (excelEpoch + n)).y = 1900
    · simp [h0] at h
    · simp [h0] at h
      subst h
      simp [parseImplDateCell, h0]
  · simp [parseImplDateCell, hy]

/-- C8 (witness for the amended theorem): the four conjuncts instantiated
at the absent cell, a native 2024-03-15 date, the Excel serial 45000, and
the string `"2024-03-15"`. -/
theorem c8_idempotence_amended_witness :
    parseImplDateCell false Cell.na = none ∧
    parseImplDateCell true (Cell.date ⟨2024, 3, 15⟩) = some ⟨2024, 3, 15⟩ ∧
    parseImplDateCell true (Cell.date ⟨2023, 3, 15⟩) = some ⟨2023, 3, 15⟩ ∧
    parseImplDateCell true (Cell.date ⟨2024, 3, 15⟩) = some ⟨2024, 3, 15⟩ :=
  ⟨c8_idempotence_amended.1 false,
   c8_idempotence_amended.2.1 (Cell.date ⟨2024, 3, 15⟩) ⟨2024, 3, 15⟩ (by decide),
   c8_idempotence_amended.2.2.1 45000 ⟨2023, 3, 15⟩ (by decide) (by decide) (by decide),
   c8_idempotence_amended.2.2.2 "2024-03-15" ⟨2024, 3, 15⟩ (by decide) (by decide)⟩

/-! ### C3 — merge column uniqueness -/

/-- C3 (counterexample): merging two normalized tables that each contain a
single column named `备注` does not produce columns `备注` and `备注_2`;
`_ensure_unique_columns` only deduplicates within one table, and
`pd.concat` then aligns the two equally-named columns into one, stacking
their rows. -/
theorem c3_merge_counterexample :
    mergeNormalized [⟨["备注"], [[Cell.str "a"]]⟩, ⟨["备注"], [[Cell.str "b"]]⟩] =
      ⟨["备注"], [[Cell.str "a"], [Cell.str "b"]]⟩ ∧
    "备注_2" ∉ (mergeNormalized [⟨["备注"], [[Cell.str "a"]]⟩,
      ⟨["备注"], [[Cell.str "b"]]⟩]).cols := by
  constructor <;> decide

/-- C3 (amended): the `_2` suffix disambiguates duplicate names within a
single table — a table whose columns are `备注, 备注` comes out with
columns `备注, 备注_2` and untouched rows — while merging two tables that
each have one `备注` column yields a single shared `备注` column whose rows
are the first table's rows followed by the second's. -/
theorem c3_merge_amended :
    (∀ rs : List (List Cell),
      ensureUniqueColumns ⟨["备注", "备注"], rs⟩ = ⟨["备注", "备注_2"], rs⟩) ∧
    (∀ xs ys : List Cell,
      mergeNormalized [⟨["备注"], xs.map (fun v => [v])⟩,
          ⟨["备注"], ys.map (fun v => [v])⟩] =
        ⟨["备注"], (xs ++ ys).map (fun v => [v])⟩) := by
  constructor
  · intro rs
    rfl
  · intro xs ys
    have e1 : mergeNormalized [⟨["备注"], xs.map (fun v => [v])⟩,
        ⟨["备注"], ys.map (fun v => [v])⟩] =
      ⟨["备注"],
        (xs.map (fun v => [v])).map (fun r => [r.getD 0 Cell.na]) ++
        ((ys.map (fun v => [v])).map (fun r => [r.getD 0 Cell.na]) ++ [])⟩ := rfl
    rw [e1]
    simp [List.map_map, Function.comp_def]

/-! ### C4 — row emission test of the sequence-number filter -/

/-- C4 (counterexample): a row whose sequence-number cell is `"-5"` — a
negative number, not all-digit text — passes `pd.to_numeric(...).notna()`
and is emitted as a record, contradicting the claim that no emitted record
carries a negative sequence number. -/
theorem c4_seq_counterexample :
    normalizeLoadedDf (some "燕园") "f" ⟨["序号"], [[Cell.str "-5"]]⟩ =
      ⟨["序号", "园区"], [[Cell.str "-5", Cell.str "燕园"]]⟩ := by
  decide

/-- Helper for the row-filter characterization: running the two row filters
and the park append of the pipeline over a singleton-wrapped column equals
filtering the cells by `seqKeep` and wrapping. -/
theorem seqPipeline_eq (vs : List Cell) :
    ((((vs.map (fun w => [w])).filter
        (fun r => seqValid (r.getD 0 Cell.na))).filter
      (fun r => !isSummaryTok (pyStrip (cellStr (r.getD 0 Cell.na))))).map
      (fun r => r ++ [Cell.str "燕园"])) =
    (vs.filter seqKeep).map (fun v => [v, Cell.str "燕园"]) := by
  induction vs with
  | nil => rfl
  | cons v vs ih =>
    simp only [List.map_cons, List.filter_cons, List.getD_cons_zero]
    by_cases h1 : seqValid v
    · by_cases h2 : isSummaryTok (pyStrip (cellStr v))
      · simp [h1, h2, seqKeep, -List.filter_filter]
        simpa using ih
      · simp [h1, h2, seqKeep, -List.filter_filter]
        simpa using ih
    · simp [h1, seqKeep, -List.filter_filter]
      simpa using ih

/-- C4 (amended): on a table whose single column is `序号`, a row is
emitted exactly when its sequence cell is all-digit text or numerically
parseable — with any sign, so negative values pass — and its stripped text
does not start with a summary token; in particular every row whose
stripped sequence cell is `合计` is excluded. -/
theorem c4_row_filter_amended :
    (∀ (vs : List Cell) (srcName : String),
      (normalizeLoadedDf (some "燕园") srcName ⟨["序号"], vs.map (fun v => [v])⟩).rows =
        (vs.filter seqKeep).map (fun v => [v, Cell.str "燕园"])) ∧
    (∀ s : String, pyStrip s = "合计" → seqKeep (Cell.str s) = false) := by
  constructor
  · intro vs srcName
    rcases vs with _ | ⟨v, vs0⟩
    · rfl
    · have e1 : (normalizeLoadedDf (some "燕园") srcName
          ⟨["序号"], (v :: vs0).map (fun w => [w])⟩).rows =
        ((((v :: vs0).map (fun w => [w])).filter
            (fun r => seqValid (r.getD 0 Cell.na))).filter
          (fun r => !isSummaryTok (pyStrip (cellStr (r.getD 0 Cell.na))))).map
          (fun r => r ++ [Cell.str "燕园"]) := rfl
      rw [e1, seqPipeline_eq]
  · intro s h
    have h1 : isSummaryTok "合计" = true := by decide
    simp [seqKeep, cellStr, h, h1]

/-- C4 (witness for the amended theorem): the emission characterization at
the two-row column `合计, 3` (only the digit row survives), and the 合计
exclusion discharged at the literal summary token. -/
theorem c4_row_filter_amended_witness :
    (normalizeLoadedDf (some "燕园") "f"
        ⟨["序号"], [Cell.str "合计", Cell.str "3"].map (fun v => [v])⟩).rows =
      ([Cell.str "合计", Cell.str "3"].filter seqKeep).map
        (fun v => [v, Cell.str "燕园"]) ∧
    seqKeep (Cell.str "合计") = false :=
  ⟨c4_row_filter_amended.1 [Cell.str "合计", Cell.str "3"] "f",
   c4_row_filter_amended.2 "合计" (by decide)⟩

/-! ### C5 — stable-demand classifier -/

/-- Helper: positionwise reading of the stable-demand mask over a mapped
column of cells. -/
theorem maskGetD_iff (cs : List Cell) (k : Nat) :
    ((cs.map (fun v =>
        match toDatetimeCell v with
        | some d => decide (2000 ≤ d.y)
        | none => false)).getD k false = true) ↔
      ∃ d, toDatetimeCell (cs.getD k Cell.na) = some d ∧ 2000 ≤ d.y := by
  induction cs generalizing k with
  | nil => simp [List.getD, toDatetimeCell]
  | cons c cs ih =>
    cases k with
    | zero =>
      simp only [List.map_cons, List.getD_cons_zero]
      rcases hd : toDatetimeCell c with _ | d <;> simp [hd]
    | succ k => simpa using ih k

/-- C5: with no column containing `需求立项` every record is flagged
`false`; with such a column (here the suffixed variant `需求立项日期`,
found by containment) a record is flagged `true` iff its cell parses to a
present date of year at least 2000 — so `1900-01-06` is not stable and
`2024-03-15` is. -/
theorem c5_stable_demand :
    (∀ t : Table, (∀ c ∈ t.cols, ¬ strContains c "需求立项" = true) →
      getStableDemandMask t = t.rows.map (fun _ => false)) ∧
    (∀ (cs : List Cell) (k : Nat),
      ((getStableDemandMask ⟨["需求立项日期"], cs.map (fun v => [v])⟩).getD k false = true ↔
        ∃ d, toDatetimeCell (cs.getD k Cell.na) = some d ∧ 2000 ≤ d.y)) ∧
    getStableDemandMask ⟨["需求立项日期"],
        [[Cell.str "1900-01-06"], [Cell.str "2024-03-15"]]⟩ = [false, true] := by
  refine ⟨fun t h => ?_, fun cs k => ?_, by decide⟩
  · unfold getStableDemandMask
    rw [List.find?_eq_none.mpr h]
  · have e1 : getStableDemandMask ⟨["需求立项日期"], cs.map (fun v => [v])⟩ =
        cs.map (fun v =>
          match toDatetimeCell v with
          | some d => decide (2000 ≤ d.y)
          | none => false) := by
      unfold getStableDemandMask
      simp only [List.find?, List.map_map]
      apply List.map_congr_left
      intro v _
      rfl
    rw [e1]
    exact maskGetD_iff cs k

/-- C5 (witness): the no-column conjunct instantiated at a table without a
requirement-approval column, and the characterization instantiated at the
single-cell column `2024-03-15`. -/
theorem c5_stable_demand_witness :
    getStableDemandMask ⟨["项目名称"], [[Cell.str "a"], [Cell.str "b"]]⟩ = [false, false] ∧
    ((getStableDemandMask ⟨["需求立项日期"],
        [Cell.str "2024-03-15"].map (fun v => [v])⟩).getD 0 false = true ↔
      ∃ d, toDatetimeCell ([Cell.str "2024-03-15"].getD 0 Cell.na) = some d ∧ 2000 ≤ d.y) :=
  ⟨c5_stable_demand.1 ⟨["项目名称"], [[Cell.str "a"], [Cell.str "b"]]⟩ (by decide),
   c5_stable_demand.2.1 [Cell.str "2024-03-15"] 0⟩

/-! ### C7 — park resolution order -/

/-- C7: an explicit `园区` column (also one obtained by renaming `社区`) is
kept untouched and is never overwritten by the park argument or the
file/sheet name; when the column is absent, the argument is falsy and the
file/sheet name holds no park token, the project names of the first rows
are scanned for a token; and when every step fails, every record receives
the sentinel `未知园区`. -/
theorem c7_park_resolution :
    (∀ (p : Option String) (src : String) (t : Table), "园区" ∈ t.cols →
      resolvePark p src t = t) ∧
    (∀ (p : Option String) (src : String) (t : Table), "社区" ∈ t.cols →
      resolvePark p src (renameShequ t) = renameShequ t) ∧
    (∀ (p : Option String) (src : String) (t : Table) (tok : String),
      "园区" ∉ t.cols → pyTruthyOpt p = false →
      PARK_TOKENS.find? (fun tk => strContains src tk) = none →
      projNameScan t = some tok →
      resolvePark p src t = addConstCol t "园区" (Cell.str tok)) ∧
    (∀ (p : Option String) (src : String) (t : Table),
      "园区" ∉ t.cols → pyTruthyOpt p = false →
      PARK_TOKENS.find? (fun tk => strContains src tk) = none →
      projNameScan t = none →
      resolvePark p src t = addConstCol t "园区" (Cell.str "未知园区")) := by
  refine ⟨fun p src t h => by simp [resolvePark, h],
    fun p src t h => ?_, fun p src t tok h1 h2 h3 h4 => ?_, fun p src t h1 h2 h3 h4 => ?_⟩
  · by_cases hy : "园区" ∈ t.cols
    · have e1 : renameShequ t = t := by simp [renameShequ, hy]
      rw [e1]
      simp [resolvePark, hy]
    · by_cases hs : "社区" ∈ t.cols ∧ "园区" ∉ t.cols
      · have e1 : renameShequ t = renameCol t "社区" "园区" := by
          simp [renameShequ, hs.1, hs.2]
        have e2 : "园区" ∈ (renameCol t "社区" "园区").cols := by
          simp only [renameCol]
          exact List.mem_map.mpr ⟨"社区", h, by simp⟩
        rw [e1]
        simp [resolvePark, e2]
      · exact absurd ⟨h, hy⟩ hs
  · simp [resolvePark, h1, h2, h3, h4]
  · simp [resolvePark, h1, h2, h3, h4]

/-- C7 (witness): the four conjuncts at concrete tables — an explicit
`园区` column survives a conflicting park argument and file name; a `社区`
column renamed to `园区` survives likewise; a token found in a project
name is used when argument and file name fail; and the sentinel is
assigned when everything fails. -/
theorem c7_park_resolution_witness :
    resolvePark (some "蜀园") "蜀园表" ⟨["园区"], [[Cell.str "燕园"]]⟩ =
      ⟨["园区"], [[Cell.str "燕园"]]⟩ ∧
    resolvePark (some "蜀园") "蜀园表" (renameShequ ⟨["社区"], [[Cell.str "燕园"]]⟩) =
      renameShequ ⟨["社区"], [[Cell.str "燕园"]]⟩ ∧
    resolvePark none "x" ⟨["项目名称"], [[Cell.str "燕园改造"]]⟩ =
      addConstCol ⟨["项目名称"], [[Cell.str "燕园改造"]]⟩ "园区" (Cell.str "燕园") ∧
    resolvePark none "x" ⟨["项目名称"], [[Cell.str "改造"]]⟩ =
      addConstCol ⟨["项目名称"], [[Cell.str "改造"]]⟩ "园区" (Cell.str "未知园区") :=
  ⟨c7_park_resolution.1 (some "蜀园") "蜀园表" ⟨["园区"], [[Cell.str "燕园"]]⟩ (by decide),
   c7_park_resolution.2.1 (some "蜀园") "蜀园表" ⟨["社区"], [[Cell.str "燕园"]]⟩ (by decide),
   c7_park_resolution.2.2.1 none "x" ⟨["项目名称"], [[Cell.str "燕园改造"]]⟩ "燕园"
     (by decide) (by decide) (by decide) (by decide),
   c7_park_resolution.2.2.2 none "x" ⟨["项目名称"], [[Cell.str "改造"]]⟩
     (by decide) (by decide) (by decide) (by decide)⟩

/-! ### C9 — encoding probing of CSV ingestion -/

/-- C9: when none of the four attempted encodings decodes the first two
lines, `load_single_csv` surfaces the encoding error and produces no
table; when some attempted encoding succeeds, the header resolution
returns `ok` with a successfully-decoding encoding and no error is raised,
and the loader parses the body of the file with exactly the encoding the
probe selected. -/
theorem c9_encoding_probe :
    (∀ (decode : Enc → Option (String × String)) (readCsv : Enc → List (List Cell))
        (p : Option String) (stem : String),
      (∀ e ∈ ENCODINGS, decode e = none) →
      loadSingleCsv decode readCsv p stem = .error encErrMsg) ∧
    (∀ decode : Enc → Option (String × String),
      (∃ e ∈ ENCODINGS, (decode e).isSome) →
      ∃ l0 l1 e, readFirstTwoLines decode = .ok (l0, l1, e) ∧ (decode e).isSome) ∧
    (∀ (decode : Enc → Option (String × String)) (readCsv : Enc → List (List Cell))
        (p : Option String) (stem : String) (l0 l1 : List String) (e : Enc),
      readFirstTwoLines decode = .ok (l0, l1, e) →
      loadSingleCsv decode readCsv p stem =
        .ok (normalizeLoadedDf p stem
          { cols := cleanCsvNames (parseHeaderFromRows l0 l1)
            rows := alignWidth (cleanCsvNames (parseHeaderFromRows l0 l1)).length
              (readCsv e) })) := by
  refine ⟨fun decode readCsv p stem h => ?_, fun decode hex => ?_,
    fun decode readCsv p stem l0 l1 e h => ?_⟩
  · have h0 := h .utf8sig (by decide)
    have h1 := h .utf8 (by decide)
    have h2 := h .gbk (by decide)
    have h3 := h .gb2312 (by decide)
    simp [loadSingleCsv, readFirstTwoLines, ENCODINGS, tryEncs, h0, h1, h2, h3]
  · rcases hd0 : decode .utf8sig with _ | ⟨a0, b0⟩
    · rcases hd1 : decode .utf8 with _ | ⟨a1, b1⟩
      · rcases hd2 : decode .gbk with _ | ⟨a2, b2⟩
        · rcases hd3 : decode .gb2312 with _ | ⟨a3, b3⟩
          · exfalso
            rcases hex with ⟨e, he, hs⟩
            fin_cases he <;>
              simp [hd0, hd1, hd2, hd3] at hs
          · exact ⟨(splitOnChar ',' (pyStrip a3).data).map String.mk,
              (splitOnChar ',' (pyStrip b3).data).map String.mk, .gb2312,
              by simp [readFirstTwoLines, ENCODINGS, tryEncs, hd0, hd1, hd2, hd3],
              by simp [hd3]⟩
        · exact ⟨(splitOnChar ',' (pyStrip a2).data).map String.mk,
            (splitOnChar ',' (pyStrip b2).data).map String.mk, .gbk,
            by simp [readFirstTwoLines, ENCODINGS, tryEncs, hd0, hd1, hd2],
            by simp [hd2]⟩
      · exact ⟨(splitOnChar ',' (pyStrip a1).data).map String.mk,
          (splitOnChar ',' (pyStrip b1).data).map String.mk, .utf8,
          by simp [readFirstTwoLines, ENCODINGS, tryEncs, hd0, hd1],
          by simp [hd1]⟩
    · exact ⟨(splitOnChar ',' (pyStrip a0).data).map String.mk,
        (splitOnChar ',' (pyStrip b0).data).map String.mk, .utf8sig,
        by simp [readFirstTwoLines, ENCODINGS, tryEncs, hd0],
        by simp [hd0]⟩
  · simp [loadSingleCsv, h]

/-- C9 (witness): the first conjunct at a decoder that always fails, and
the second and third at a decoder whose third attempt (gbk) succeeds —
the loader then reads the body under gbk. -/
theorem c9_encoding_probe_witness :
    loadSingleCsv (fun _ => none) (fun _ => []) none "s" = .error encErrMsg ∧
    (∃ l0 l1 e,
      readFirstTwoLines
        (fun e => if e = Enc.gbk then some ("a,b", "c,d") else none) =
          .ok (l0, l1, e) ∧
      ((fun e => if e = Enc.gbk then some ("a,b", "c,d") else none) e).isSome) ∧
    loadSingleCsv (fun e => if e = Enc.gbk then some ("a,b", "c,d") else none)
        (fun _ => []) none "s" =
      .ok (normalizeLoadedDf none "s"
        { cols := cleanCsvNames (parseHeaderFromRows ["a", "b"] ["c", "d"])
          rows := alignWidth (cleanCsvNames (parseHeaderFromRows ["a", "b"] ["c", "d"])).length
            ((fun (_ : Enc) => ([] : List (List Cell))) Enc.gbk) }) :=
  ⟨c9_encoding_probe.1 (fun _ => none) (fun _ => []) none "s" (by decide),
   c9_encoding_probe.2.1 (fun e => if e = Enc.gbk then some ("a,b", "c,d") else none)
     ⟨Enc.gbk, by decide, by decide⟩,
   c9_encoding_probe.2.2 (fun e => if e = Enc.gbk then some ("a,b", "c,d") else none)
     (fun _ => []) none "s" ["a", "b"] ["c", "d"] Enc.gbk rfl⟩

/-! ### C10 — integer coercion of the planned-amount column -/

/-- C10: after the coercion stage every cell of the `拟定金额` column is an
integer cell — the numeric parse (0 on failure) followed by `astype(int)`
truncation — so the fractional amount `1234.56` ends up as the integer
1234 (truncated, not preserved), an unparseable cell as 0, and an integer
cell as itself. -/
theorem c10_amount_integer_truncation :
    (∀ vs : List Cell,
      coerceAmount ⟨["拟定金额"], vs.map (fun v => [v])⟩ =
        ⟨["拟定金额"], vs.map (fun v =>
          [Cell.num (((toNumeric v).getD (PyNum.ofInt 0)).trunc)])⟩) ∧
    coerceAmount ⟨["拟定金额"], [[Cell.str "1234.56"], [Cell.str "x"], [Cell.num 7]]⟩ =
      ⟨["拟定金额"], [[Cell.num 1234], [Cell.num 0], [Cell.num 7]]⟩ := by
  constructor
  · intro vs
    have e1 : coerceAmount ⟨["拟定金额"], vs.map (fun v => [v])⟩ =
        ⟨["拟定金额"], (vs.map (fun v => [v])).map
          (modifyAt 0 (fun c => Cell.num (((toNumeric c).getD (PyNum.ofInt 0)).trunc)))⟩ :=
      rfl
    rw [e1, List.map_map]
    rfl
  · decide
